import Mathlib

/-!
Verification of the typed port-declaration and port-mapping core
(`dagster/_core/definitions/input.py`): `InputDefinition`, inference merge,
`InputMapping` with its pointer variants, and the `In` template.

External collaborators that are referenced by `input.py` but whose bodies are
not part of the source set (the type registry `resolve_dagster_type`, the name
grammar `check_valid_name`, the `check` parameter helpers, scalar type checks)
are modelled from the specification's stated contracts; each such definition
carries a doc comment saying so.  Everything else is translated directly from
the source.
-/

/-- Canonical type descriptors.  `Any` is the "untyped" resolution of an unset
specifier, `Nothing` the no-value-may-flow type, `NoneType` the descriptor that
matches only the null value, `IntType`/`StringType`/`BoolType` the built-in
scalars, and `named` stands for any other registered type. -/
inductive DagsterType
  | Any
  | Nothing
  | NoneType
  | IntType
  | StringType
  | BoolType
  | named (s : String)
  deriving DecidableEq, Repr

/-- Display text of a descriptor (model of Python `str`/`display_name`). -/
def dagsterTypeText : DagsterType → String
  | .Any => "Any"
  | .Nothing => "Nothing"
  | .NoneType => "NoneType"
  | .IntType => "Int"
  | .StringType => "String"
  | .BoolType => "Bool"
  | .named s => s

/-- `dagster_type.is_nothing` from the source's check in `_check_default_value`. -/
def DagsterType.is_nothing : DagsterType → Bool
  | .Nothing => true
  | _ => false

/-- Modelled from the spec: the built-in scalar descriptors recognised by the
external `BuiltinScalarDagsterType` class. -/
def DagsterType.isBuiltinScalar : DagsterType → Bool
  | .IntType => true
  | .StringType => true
  | .BoolType => true
  | _ => false

/-- Model of Python values that can appear as a default value. -/
inductive PyValue
  | none
  | int (i : Int)
  | str (s : String)
  | bool (b : Bool)
  deriving DecidableEq, Repr

/-- Modelled from the spec: each built-in scalar's own value check
(`type_check_scalar_value`), a best-effort runtime-class test. -/
def typeCheckScalarValue : DagsterType → PyValue → Bool
  | .IntType, .int _ => true
  | .StringType, .str _ => true
  | .BoolType, .bool _ => true
  | _, _ => false

/-- A default-value slot: either the distinguished `NoValueSentinel` or an
actual Python value (which may itself be `PyValue.none`). -/
inductive DefaultValue
  | noValue
  | val (v : PyValue)
  deriving DecidableEq, Repr

/-- Raw type specifiers handed to the external resolver: `unset` is Python
`None` in the `dagster_type` position, `noneType` is `type(None)`, `dt` an
already-canonical descriptor, `pyInt`/`pyStr`/`pyBool` native classes, and
`unresolvable` any object the registry cannot map. -/
inductive RawType
  | unset
  | noneType
  | dt (t : DagsterType)
  | pyInt
  | pyStr
  | pyBool
  | unresolvable (s : String)
  deriving DecidableEq, Repr

/-- Display text of a raw specifier (model of Python `str`). -/
def rawTypeText : RawType → String
  | .unset => "None"
  | .noneType => "NoneType"
  | .dt t => dagsterTypeText t
  | .pyInt => "int"
  | .pyStr => "str"
  | .pyBool => "bool"
  | .unresolvable s => s

/-- Error kinds surfaced by the core (section 7 of the design): an invalid
name, a failed type resolution, and the definition-time error class
`DagsterInvalidDefinitionError`. -/
inductive DefError
  | invalidName (msg : String)
  | typeResolution (msg : String)
  | invalidDefinition (msg : String)
  deriving DecidableEq, Repr

/-- Modelled from the spec: the external TypeDescriptorResolver contract
(section 4.1): an unset specifier resolves to the untyped descriptor, an
already-canonical descriptor resolves to itself, native classes resolve to the
corresponding built-ins, and anything unknown fails with a resolution error. -/
def resolve_dagster_type : RawType → Except DefError DagsterType
  | .unset => .ok .Any
  | .noneType => .ok .NoneType
  | .dt t => .ok t
  | .pyInt => .ok .IntType
  | .pyStr => .ok .StringType
  | .pyBool => .ok .BoolType
  | .unresolvable s => .error (.typeResolution (s ++ " is not a valid dagster type"))

/-- Modelled from the spec: the identifier grammar of `check_valid_name`
(non-empty, alphanumeric-or-underscore characters). -/
def isValidName (name : String) : Bool :=
  !name.data.isEmpty && name.data.all (fun c => c.isAlphanum || c = '_')

/-- Modelled from the spec: `check_valid_name` returns the name unchanged when
it matches the grammar and fails with an invalid-name error otherwise. -/
def check_valid_name (name : String) : Except DefError String :=
  if isValidName name then .ok name
  else .error (.invalidName (name ++ " is not a valid name"))

/-- Python truthiness of an optional string (`if root_manager_key and ...`):
`None` and the empty string are falsy. -/
def strTruthy : Option String → Bool
  | none => false
  | some s => !s.data.isEmpty

/-- Translation of the source's `_check_default_value`: absence is always
legal; a concrete default on a Nothing-typed input fails; a concrete default on
a built-in scalar must pass that scalar's own check; otherwise the value is
returned unchanged. -/
def checkDefaultValue (input_name : String) (dagster_type : DagsterType)
    (default_value : DefaultValue) : Except DefError DefaultValue :=
  match default_value with
  | .noValue => .ok .noValue
  | .val v =>
    if dagster_type.is_nothing then
      .error (.invalidDefinition
        "Setting a default_value is invalid on InputDefinitions of type Nothing")
    else if dagster_type.isBuiltinScalar then
      if typeCheckScalarValue dagster_type v then .ok (.val v)
      else .error (.invalidDefinition
        ("Type check failed for the default_value of InputDefinition "
          ++ input_name ++ " of type " ++ dagsterTypeText dagster_type))
    else .ok (.val v)

/-- Modelled from the spec: the opaque evaluation context passed through to
lineage callbacks. -/
structure InputContext where
  id : Nat
  deriving DecidableEq, Repr

/-- Modelled from the spec: an asset identifier (a key path). -/
structure AssetKey where
  path : List String
  deriving DecidableEq, Repr

/-- The `asset_key` argument: absent, a fixed key, or a function of context. -/
inductive AssetKeyParam
  | none
  | fixed (k : AssetKey)
  | fn (f : InputContext → AssetKey)

/-- `asset_key is not None` (a fixed key or a function is always truthy). -/
def AssetKeyParam.isSome : AssetKeyParam → Bool
  | .none => false
  | .fixed _ => true
  | .fn _ => true

/-- The `asset_partitions` argument: absent, a fixed set, or a function. -/
inductive AssetPartitionsParam
  | none
  | fixed (s : Finset String)
  | fn (f : InputContext → Finset String)

/-- Python truthiness of the `asset_partitions` argument: `None` and the empty
set are falsy, a non-empty set and any function are truthy. -/
def AssetPartitionsParam.truthy : AssetPartitionsParam → Bool
  | .none => false
  | .fixed s => decide (s ≠ ∅)
  | .fn _ => true

/-- Normalisation of `asset_partitions` performed at the end of
`InputDefinition.__init__`: a function is stored as-is, a fixed set is wrapped
as a constant function, absence is stored as absence. -/
def normalizePartitions : AssetPartitionsParam → Option (InputContext → Finset String)
  | .fn f => some f
  | .fixed s => some (fun _ => s)
  | .none => none

/-- `_type_not_set`: whether the `dagster_type` argument was Python `None`
(the unset specifier), recorded before resolution. -/
def typeNotSetOf : RawType → Bool
  | .unset => true
  | _ => false

/-- The fully-resolved port declaration, mirroring the stored attributes of the
source's `InputDefinition` (metadata entries, being a pure function of
`metadata`, are not duplicated here). -/
structure InputDefinition where
  name : String
  type_not_set : Bool
  dagster_type : DagsterType
  description : Option String
  default_value : DefaultValue
  root_manager_key : Option String
  input_manager_key : Option String
  metadata : List (String × String)
  asset_key : AssetKeyParam
  asset_partitions_fn : Option (InputContext → Finset String)

/-- Translation of `InputDefinition.__init__`, with each check in source
order: name grammar, type resolution (recording `_type_not_set`), default
validation, mutual exclusion of the two manager keys, the truthy
`asset_partitions` ⇒ `asset_key` invariant, and partition normalisation. -/
def InputDefinition.make (name : String) (dagster_type : RawType)
    (description : Option String) (default_value : DefaultValue)
    (root_manager_key : Option String) (metadata : List (String × String))
    (asset_key : AssetKeyParam) (asset_partitions : AssetPartitionsParam)
    (input_manager_key : Option String) : Except DefError InputDefinition :=
  match check_valid_name name with
  | .error e => .error e
  | .ok vname =>
    match resolve_dagster_type dagster_type with
    | .error e => .error e
    | .ok resolved =>
      match checkDefaultValue vname resolved default_value with
      | .error e => .error e
      | .ok checked_default =>
        if strTruthy root_manager_key && strTruthy input_manager_key then
          .error (.invalidDefinition
            "Cant supply both root input manager key and input manager key on InputDefinition.")
        else if asset_partitions.truthy && !asset_key.isSome then
          .error (.invalidDefinition
            "Cannot specify asset_partitions argument without also specifying asset_key")
        else
          .ok { name := vname
                type_not_set := typeNotSetOf dagster_type
                dagster_type := resolved
                description := description
                default_value := checked_default
                root_manager_key := root_manager_key
                input_manager_key := input_manager_key
                metadata := metadata
                asset_key := asset_key
                asset_partitions_fn := normalizePartitions asset_partitions }

/-- `has_default_value`: the stored default differs from the sentinel. -/
def InputDefinition.has_default_value (d : InputDefinition) : Bool :=
  match d.default_value with
  | .noValue => false
  | .val _ => true

/-- `get_asset_partitions`: `None` when no partitions were configured,
otherwise the stored (normalised) function applied to the context. -/
def InputDefinition.get_asset_partitions (d : InputDefinition)
    (context : InputContext) : Option (Finset String) :=
  match d.asset_partitions_fn with
  | none => none
  | some f => some (f context)

/-- The annotation slot of an inferred input: `empty` is
`inspect.Parameter.empty` (no annotation at all), `noneAnn` an explicit `None`
annotation, `raw` any other annotation object. -/
inductive Annot
  | empty
  | noneAnn
  | raw (r : RawType)
  deriving DecidableEq, Repr

/-- Display text of an annotation (model of Python `str` interpolation). -/
def annotText : Annot → String
  | .empty => "Parameter.empty"
  | .noneAnn => "None"
  | .raw r => rawTypeText r

/-- Modelled from the spec: `InferredInputProps` (from the signature-inspection
module, not part of the source set): name, annotation, optional description and
default value inferred from a parameter. -/
structure InferredInputProps where
  name : String
  annot : Annot
  description : Option String
  default_value : DefaultValue
  deriving DecidableEq, Repr

/-- Translation of the source's `_checked_inferred_type`: an absent annotation
resolves like an unset specifier, an explicit `None` annotation resolves
`type(None)`, anything else resolves normally; a resolution failure is
re-raised as a definition error naming the argument and the annotation. -/
def checkedInferredType (inferred : InferredInputProps) : Except DefError DagsterType :=
  match
    (match inferred.annot with
      | .empty => resolve_dagster_type .unset
      | .noneAnn => resolve_dagster_type .noneType
      | .raw r => resolve_dagster_type r) with
  | .ok t => .ok t
  | .error _ => .error (.invalidDefinition
      ("Problem using type " ++ annotText inferred.annot
        ++ " from type annotation for argument " ++ inferred.name
        ++ ", correct the issue or explicitly set the dagster_type via In()."))

/-- Re-wrapping of a stored partitions function as a constructor argument, as
done when `combine_with_inferred` and `In.from_definition` pass
`self._asset_partitions_fn` back into a constructor. -/
def partitionsParamOfFn : Option (InputContext → Finset String) → AssetPartitionsParam
  | none => .none
  | some f => .fn f

/-- The merged dagster type of `combine_with_inferred`: re-resolved from the
inferred annotation only when the type was not explicitly set. -/
def mergedType (d : InputDefinition) (inferred : InferredInputProps) :
    Except DefError DagsterType :=
  if d.type_not_set then checkedInferredType inferred else .ok d.dagster_type

/-- Translation of `InputDefinition.combine_with_inferred`: names must align;
the type is re-resolved only if not explicitly set, the description and default
fall back to the inferred ones only when absent on `self`, and every other
field is carried over into a freshly constructed `InputDefinition`. -/
def InputDefinition.combine_with_inferred (d : InputDefinition)
    (inferred : InferredInputProps) : Except DefError InputDefinition :=
  if d.name = inferred.name then
    match mergedType d inferred with
    | .error e => .error e
    | .ok dt =>
      InputDefinition.make d.name (.dt dt)
        (match d.description with
          | some s => some s
          | none => inferred.description)
        (if d.has_default_value then d.default_value else inferred.default_value)
        d.root_manager_key d.metadata d.asset_key
        (partitionsParamOfFn d.asset_partitions_fn) d.input_manager_key
  else
    .error (.invalidDefinition
      ("InferredInputProps name " ++ inferred.name
        ++ " did not align with InputDefinition name " ++ d.name))

/-- `InputPointer`: a direct pointer to one descendant port. -/
structure InputPointer where
  solid_name : String
  input_name : String
  deriving DecidableEq, Repr

/-- `FanInInputPointer`: a pointer to an indexed slot of a fan-in port. -/
structure FanInInputPointer where
  solid_name : String
  input_name : String
  fan_in_index : Int
  deriving DecidableEq, Repr

/-- `InputMapping`: a composite graph's boundary input wired to a descendant
port, a plain record with no construction-time validation. -/
structure InputMapping where
  graph_input_name : String
  mapped_node_name : String
  mapped_node_input_name : String
  fan_in_index : Option Int
  graph_input_description : Option String
  dagster_type : Option DagsterType
  deriving DecidableEq, Repr

/-- `InputMapping.maps_to`: computed, not stored — a fan-in pointer exactly
when `fan_in_index` is present, a direct pointer otherwise. -/
def InputMapping.maps_to (m : InputMapping) : InputPointer ⊕ FanInInputPointer :=
  match m.fan_in_index with
  | some i => Sum.inr ⟨m.mapped_node_name, m.mapped_node_input_name, i⟩
  | none => Sum.inl ⟨m.mapped_node_name, m.mapped_node_input_name⟩

/-- `InputMapping.describe`: the trace string, with the index appended directly
after the port name only in the fan-in case. -/
def InputMapping.describe (m : InputMapping) : String :=
  match m.maps_to with
  | Sum.inl p => m.graph_input_name ++ " -> " ++ p.solid_name ++ ":" ++ p.input_name
  | Sum.inr p => m.graph_input_name ++ " -> " ++ p.solid_name ++ ":" ++ p.input_name
      ++ toString p.fan_in_index

/-- Translation of `InputDefinition.mapping_to`: builds an `InputMapping`
carrying this port's name, description and (display-only) type; the optional
`fan_in_index` is only type-checked (`check.opt_int_param`), never
range-checked. -/
def InputDefinition.mapping_to (d : InputDefinition) (solid_name input_name : String)
    (fan_in_index : Option Int) : InputMapping :=
  { graph_input_name := d.name
    mapped_node_name := solid_name
    mapped_node_input_name := input_name
    fan_in_index := fan_in_index
    graph_input_description := d.description
    dagster_type := some d.dagster_type }

/-- The `In` template, mirroring the source's named tuple: a name-less,
partially specified port declaration (`dagster_type = none` models the
`NoValueSentinel` slot). -/
structure In where
  dagster_type : Option DagsterType
  description : Option String
  default_value : DefaultValue
  root_manager_key : Option String
  metadata : List (String × String)
  asset_key : AssetKeyParam
  asset_partitions : AssetPartitionsParam
  input_manager_key : Option String

/-- Translation of `In.__new__`: rejects two manager keys, resolves the
dagster type when one was supplied, and stores everything else unchecked. -/
def In.make (dagster_type : Option RawType) (description : Option String)
    (default_value : DefaultValue) (root_manager_key : Option String)
    (metadata : List (String × String)) (asset_key : AssetKeyParam)
    (asset_partitions : AssetPartitionsParam) (input_manager_key : Option String) :
    Except DefError In :=
  if strTruthy root_manager_key && strTruthy input_manager_key then
    .error (.invalidDefinition
      "Cant supply both root input manager key and input manager key on InputDefinition.")
  else
    match
      (match dagster_type with
        | none => Except.ok Option.none
        | some r =>
          match resolve_dagster_type r with
          | .error e => .error e
          | .ok t => .ok (some t)) with
    | .error e => .error e
    | .ok dt =>
      .ok { dagster_type := dt
            description := description
            default_value := default_value
            root_manager_key := root_manager_key
            metadata := metadata
            asset_key := asset_key
            asset_partitions := asset_partitions
            input_manager_key := input_manager_key }

/-- Translation of `In.from_definition`: every stored field of the definition
(the raw default, the stored asset key and the normalised partitions function
included) is handed to the `In` constructor. -/
def In.from_definition (input_def : InputDefinition) : Except DefError In :=
  In.make (some (.dt input_def.dagster_type)) input_def.description
    input_def.default_value input_def.root_manager_key input_def.metadata
    input_def.asset_key (partitionsParamOfFn input_def.asset_partitions_fn)
    input_def.input_manager_key

/-- Translation of `In.to_definition`: an unset template type becomes the
unset specifier, and all fields are handed to `InputDefinition`'s constructor
(which re-runs its checks). -/
def In.to_definition (i : In) (name : String) : Except DefError InputDefinition :=
  InputDefinition.make name
    (match i.dagster_type with
      | some t => .dt t
      | none => .unset)
    i.description i.default_value i.root_manager_key i.metadata i.asset_key
    i.asset_partitions i.input_manager_key

/-- The declaration → template → declaration round trip of claim C3. -/
def roundTrip (d : InputDefinition) (name : String) : Except DefError InputDefinition :=
  match In.from_definition d with
  | .error e => .error e
  | .ok i => i.to_definition name

/-- Success test for `Except` results. -/
def exceptOk : Except DefError InputDefinition → Bool
  | .ok _ => true
  | .error _ => false

/-! ### Helper lemmas -/

theorem check_valid_name_ok_eq {name vname : String}
    (h : check_valid_name name = .ok vname) : vname = name ∧ isValidName name = true := by
  unfold check_valid_name at h
  by_cases hv : isValidName name = true
  · simp [hv] at h
    exact ⟨h.symm, hv⟩
  · simp [hv] at h

theorem checkDefaultValue_ok_eq {n : String} {t : DagsterType} {v w : DefaultValue}
    (h : checkDefaultValue n t v = .ok w) : w = v := by
  unfold checkDefaultValue at h
  cases v with
  | noValue => simpa using h.symm
  | val pv =>
    by_cases h1 : t.is_nothing = true
    · simp [h1] at h
    · by_cases h2 : t.isBuiltinScalar = true
      · by_cases h3 : typeCheckScalarValue t pv = true
        · simp [h1, h2, h3] at h
          exact h.symm
        · simp [h1, h2, h3] at h
      · simp [h1, h2] at h
        exact h.symm

/-- Everything `InputDefinition.make` guarantees about a successful result:
each stored field in terms of the constructor arguments. -/
theorem make_ok_fields {name : String} {rt : RawType} {desc : Option String}
    {dv : DefaultValue} {rmk : Option String} {md : List (String × String)}
    {ak : AssetKeyParam} {ap : AssetPartitionsParam} {imk : Option String}
    {d : InputDefinition}
    (h : InputDefinition.make name rt desc dv rmk md ak ap imk = .ok d) :
    d.name = name ∧ isValidName name = true ∧
    resolve_dagster_type rt = .ok d.dagster_type ∧
    d.type_not_set = typeNotSetOf rt ∧
    d.description = desc ∧ d.default_value = dv ∧
    d.root_manager_key = rmk ∧ d.input_manager_key = imk ∧
    d.metadata = md ∧ d.asset_key = ak ∧
    d.asset_partitions_fn = normalizePartitions ap := by
  unfold InputDefinition.make at h
  split at h
  · exact absurd h (by simp)
  · rename_i vname hn
    split at h
    · exact absurd h (by simp)
    · rename_i resolved hr
      split at h
      · exact absurd h (by simp)
      · rename_i checked hd
        split at h
        · exact absurd h (by simp)
        · split at h
          · exact absurd h (by simp)
          · obtain ⟨hveq, hvalid⟩ := check_valid_name_ok_eq hn
            have hdv := checkDefaultValue_ok_eq hd
            injection h with h
            subst h
            exact ⟨hveq, hvalid, hr, rfl, rfl, hdv, rfl, rfl, rfl, rfl, rfl⟩

/-- Normalising a re-wrapped partitions function is the identity: what
`combine_with_inferred` passes back through the constructor comes out as the
stored field unchanged. -/
theorem normalize_partitionsParamOfFn (o : Option (InputContext → Finset String)) :
    normalizePartitions (partitionsParamOfFn o) = o := by
  cases o <;> rfl

/-- Everything `combine_with_inferred` guarantees about a successful result:
the three merged fields follow the explicit-wins precedence and every other
field is carried over from `self`. -/
theorem combine_ok_spec (d : InputDefinition) (inferred : InferredInputProps)
    (out : InputDefinition)
    (hout : d.combine_with_inferred inferred = .ok out) :
    out.name = d.name ∧
    (d.type_not_set = false → out.dagster_type = d.dagster_type) ∧
    (d.type_not_set = true → checkedInferredType inferred = .ok out.dagster_type) ∧
    out.description = (match d.description with
      | some s => some s
      | none => inferred.description) ∧
    out.default_value =
      (if d.has_default_value then d.default_value else inferred.default_value) ∧
    out.root_manager_key = d.root_manager_key ∧
    out.input_manager_key = d.input_manager_key ∧
    out.metadata = d.metadata ∧
    out.asset_key = d.asset_key ∧
    out.asset_partitions_fn = d.asset_partitions_fn := by
  unfold InputDefinition.combine_with_inferred at hout
  split at hout
  · split at hout
    · exact absurd hout (by simp)
    · rename_i dt hmt
      obtain ⟨h1, _, h3, _, h5, h6, h7, h8, h9, h10, h11⟩ := make_ok_fields hout
      have hdt : out.dagster_type = dt := by
        simp [resolve_dagster_type] at h3
        exact h3.symm
      refine ⟨h1, ?_, ?_, h5, h6, h7, h8, h9, h10, ?_⟩
      · intro hts
        unfold mergedType at hmt
        rw [hts] at hmt
        simp at hmt
        rw [hdt, hmt]
      · intro hts
        unfold mergedType at hmt
        rw [hts] at hmt
        simp at hmt
        rw [hdt]
        exact hmt
      · rw [h11, normalize_partitionsParamOfFn]
  · exact absurd hout (by simp)

/-! ### Concrete values used by witnesses -/

/-- A concrete declaration with nothing explicitly set beyond its name. -/
def sampleDef : InputDefinition :=
  { name := "x"
    type_not_set := true
    dagster_type := .Any
    description := none
    default_value := .noValue
    root_manager_key := none
    input_manager_key := none
    metadata := []
    asset_key := .none
    asset_partitions_fn := none }

/-- Concrete inferred properties aligned with `sampleDef`'s name. -/
def sampleInferred : InferredInputProps :=
  { name := "x"
    annot := .raw .pyInt
    description := some "an int"
    default_value := .val (.int 3) }

/-- The declaration produced by merging `sampleDef` with `sampleInferred`. -/
def sampleMerged : InputDefinition :=
  { name := "x"
    type_not_set := false
    dagster_type := .IntType
    description := some "an int"
    default_value := .val (.int 3)
    root_manager_key := none
    input_manager_key := none
    metadata := []
    asset_key := .none
    asset_partitions_fn := none }

/-! ### Claims -/

/-- C1: when the names align, `combine_with_inferred` chooses each of the three
merged fields independently by explicit-wins precedence: the type descriptor is
`self`'s own when the type was explicit and the resolution of the inferred
annotation otherwise; the description is `self`'s unless absent; the default is
`self`'s when present, otherwise the inferred one. -/
theorem combine_with_inferred_precedence (d : InputDefinition)
    (inferred : InferredInputProps) (out : InputDefinition)
    (hname : inferred.name = d.name)
    (hout : d.combine_with_inferred inferred = .ok out) :
    (d.type_not_set = false → out.dagster_type = d.dagster_type) ∧
    (d.type_not_set = true → checkedInferredType inferred = .ok out.dagster_type) ∧
    out.description = (match d.description with
      | some s => some s
      | none => inferred.description) ∧
    out.default_value =
      (if d.has_default_value then d.default_value else inferred.default_value) := by
  obtain ⟨_, h2, h3, h4, h5, _⟩ := combine_ok_spec d inferred out hout
  exact ⟨h2, h3, h4, h5⟩

/-- Witness for C1 at a concrete merge. -/
theorem combine_with_inferred_precedence_witness :
    sampleInferred.name = sampleDef.name ∧
    sampleDef.combine_with_inferred sampleInferred = .ok sampleMerged ∧
    ((sampleDef.type_not_set = false → sampleMerged.dagster_type = sampleDef.dagster_type) ∧
     (sampleDef.type_not_set = true →
       checkedInferredType sampleInferred = .ok sampleMerged.dagster_type) ∧
     sampleMerged.description = (match sampleDef.description with
       | some s => some s
       | none => sampleInferred.description) ∧
     sampleMerged.default_value = (if sampleDef.has_default_value then sampleDef.default_value
       else sampleInferred.default_value)) :=
  ⟨rfl, rfl, combine_with_inferred_precedence sampleDef sampleInferred sampleMerged rfl rfl⟩

/-- C2: `combine_with_inferred` is a frame for every field other than the three
merged ones — name, manager keys, metadata, asset key and asset-partitions
configuration are carried over from `self` unchanged. -/
theorem combine_with_inferred_frame (d : InputDefinition)
    (inferred : InferredInputProps) (out : InputDefinition)
    (hname : inferred.name = d.name)
    (hout : d.combine_with_inferred inferred = .ok out) :
    out.name = d.name ∧
    out.root_manager_key = d.root_manager_key ∧
    out.input_manager_key = d.input_manager_key ∧
    out.metadata = d.metadata ∧
    out.asset_key = d.asset_key ∧
    out.asset_partitions_fn = d.asset_partitions_fn := by
  obtain ⟨h1, _, _, _, _, h6, h7, h8, h9, h10⟩ := combine_ok_spec d inferred out hout
  exact ⟨h1, h6, h7, h8, h9, h10⟩

/-- Witness for C2 at the same concrete merge. -/
theorem combine_with_inferred_frame_witness :
    sampleInferred.name = sampleDef.name ∧
    sampleDef.combine_with_inferred sampleInferred = .ok sampleMerged ∧
    (sampleMerged.name = sampleDef.name ∧
     sampleMerged.root_manager_key = sampleDef.root_manager_key ∧
     sampleMerged.input_manager_key = sampleDef.input_manager_key ∧
     sampleMerged.metadata = sampleDef.metadata ∧
     sampleMerged.asset_key = sampleDef.asset_key ∧
     sampleMerged.asset_partitions_fn = sampleDef.asset_partitions_fn) :=
  ⟨rfl, rfl, combine_with_inferred_frame sampleDef sampleInferred sampleMerged rfl rfl⟩

/-- A validly constructible declaration the round trip breaks on: an empty
fixed partitions set with no asset key (the truthiness check in the constructor
skips the empty set, but the stored constant function is truthy). -/
def emptyPartitionsMake : Except DefError InputDefinition :=
  InputDefinition.make "x" .unset none .noValue none [] .none (.fixed ∅) none

/-- C3 counterexample: the round trip of claim C3 fails on a validly
constructed declaration — one built with an empty `asset_partitions` set and no
`asset_key` constructs fine, but converting it to an `In` and back raises
instead of reproducing it. -/
theorem in_roundtrip_counterexample :
    exceptOk emptyPartitionsMake = true ∧
    exceptOk (match emptyPartitionsMake with
      | .ok d => roundTrip d "x"
      | .error e => .error e) = false :=
  ⟨rfl, rfl⟩

/-- C3 amended: whenever the declaration → template → declaration round trip
succeeds, it reproduces every externally observable field of the original; it
can fail for a validly constructed declaration that carries an asset-partitions
configuration without an asset key. -/
theorem in_roundtrip_preserves_fields (d : InputDefinition) (i : In)
    (out : InputDefinition)
    (hi : In.from_definition d = .ok i)
    (hout : i.to_definition d.name = .ok out) :
    out.name = d.name ∧ out.dagster_type = d.dagster_type ∧
    out.description = d.description ∧ out.default_value = d.default_value ∧
    out.has_default_value = d.has_default_value ∧
    out.root_manager_key = d.root_manager_key ∧
    out.input_manager_key = d.input_manager_key ∧
    out.metadata = d.metadata ∧ out.asset_key = d.asset_key ∧
    out.asset_partitions_fn = d.asset_partitions_fn := by
  unfold In.from_definition In.make at hi
  split at hi
  · exact absurd hi (by simp)
  · injection hi with hi
    subst hi
    unfold In.to_definition at hout
    obtain ⟨h1, _, h3, _, h5, h6, h7, h8, h9, h10, h11⟩ := make_ok_fields hout
    simp only [resolve_dagster_type] at h3
    refine ⟨h1, ?_, h5, h6, ?_, h7, h8, h9, h10, ?_⟩
    · exact (Except.ok.inj h3).symm
    · rw [InputDefinition.has_default_value, InputDefinition.has_default_value, h6]
    · rw [h11, normalize_partitionsParamOfFn]

/-- The `In` template extracted from `sampleDef`. -/
def sampleIn : In :=
  { dagster_type := some .Any
    description := none
    default_value := .noValue
    root_manager_key := none
    metadata := []
    asset_key := .none
    asset_partitions := .none
    input_manager_key := none }

/-- Re-binding `sampleIn` to the name `x` (only `type_not_set` differs from
`sampleDef`, which is not an externally observable field). -/
def sampleRound : InputDefinition :=
  { name := "x"
    type_not_set := false
    dagster_type := .Any
    description := none
    default_value := .noValue
    root_manager_key := none
    input_manager_key := none
    metadata := []
    asset_key := .none
    asset_partitions_fn := none }

/-- Witness for the amended C3 at a concrete round trip. -/
theorem in_roundtrip_preserves_fields_witness :
    In.from_definition sampleDef = .ok sampleIn ∧
    sampleIn.to_definition sampleDef.name = .ok sampleRound ∧
    (sampleRound.name = sampleDef.name ∧
     sampleRound.dagster_type = sampleDef.dagster_type ∧
     sampleRound.description = sampleDef.description ∧
     sampleRound.default_value = sampleDef.default_value ∧
     sampleRound.has_default_value = sampleDef.has_default_value ∧
     sampleRound.root_manager_key = sampleDef.root_manager_key ∧
     sampleRound.input_manager_key = sampleDef.input_manager_key ∧
     sampleRound.metadata = sampleDef.metadata ∧
     sampleRound.asset_key = sampleDef.asset_key ∧
     sampleRound.asset_partitions_fn = sampleDef.asset_partitions_fn) :=
  ⟨rfl, rfl, in_roundtrip_preserves_fields sampleDef sampleIn sampleRound rfl rfl⟩

/-- C4: `maps_to` is a fan-in pointer exactly when `fan_in_index` is present
and a direct pointer exactly when it is absent; `mapping_to` without an index
yields a direct pointer and with an index `k` a fan-in pointer carrying `k`. -/
theorem maps_to_variant :
    (∀ (m : InputMapping) (k : Int), m.fan_in_index = some k →
      m.maps_to = Sum.inr ⟨m.mapped_node_name, m.mapped_node_input_name, k⟩) ∧
    (∀ m : InputMapping, m.fan_in_index = none →
      m.maps_to = Sum.inl ⟨m.mapped_node_name, m.mapped_node_input_name⟩) ∧
    (∀ (d : InputDefinition) (node port : String),
      (d.mapping_to node port none).maps_to = Sum.inl ⟨node, port⟩) ∧
    (∀ (d : InputDefinition) (node port : String) (k : Int),
      (d.mapping_to node port (some k)).maps_to = Sum.inr ⟨node, port, k⟩) := by
  refine ⟨?_, ?_, ?_, ?_⟩
  · intro m k hk
    unfold InputMapping.maps_to
    rw [hk]
  · intro m hm
    unfold InputMapping.maps_to
    rw [hm]
  · intro d node port
    rfl
  · intro d node port k
    rfl

/-- The fan-in mapping used by witnesses. -/
def sampleFanMapping : InputMapping := sampleDef.mapping_to "node" "port" (some 2)

/-- The direct mapping used by witnesses. -/
def sampleDirectMapping : InputMapping := sampleDef.mapping_to "node" "port" none

/-- Witness for C4 at concrete mappings. -/
theorem maps_to_variant_witness :
    sampleFanMapping.fan_in_index = some 2 ∧
    sampleFanMapping.maps_to = Sum.inr ⟨"node", "port", 2⟩ ∧
    sampleDirectMapping.fan_in_index = none ∧
    sampleDirectMapping.maps_to = Sum.inl ⟨"node", "port"⟩ :=
  ⟨rfl, maps_to_variant.1 sampleFanMapping 2 rfl, rfl,
    maps_to_variant.2.1 sampleDirectMapping rfl⟩

/-- C5 counterexample: a negative fan-in index is accepted unchanged by
construction (`check.opt_int_param` only type-checks), so an accepted
`InputMapping` can carry `fan_in_index = -1 < 0`, refuting the claimed
non-negativity invariant. -/
theorem negative_fan_in_accepted :
    (sampleDef.mapping_to "node" "port" (some (-1))).fan_in_index = some (-1) ∧
    (sampleDef.mapping_to "node" "port" (some (-1))).maps_to =
      Sum.inr ⟨"node", "port", -1⟩ ∧
    ((-1 : Int) < 0) :=
  ⟨rfl, rfl, by decide⟩

/-- C5 amended: when `fan_in_index` is present it may be any integer —
construction (directly or via `mapping_to`) stores it without a sign check. -/
theorem mapping_to_fan_in_index_unchecked (d : InputDefinition)
    (node port : String) (k : Int) :
    (d.mapping_to node port (some k)).fan_in_index = some k ∧
    { graph_input_name := "g"
      mapped_node_name := node
      mapped_node_input_name := port
      fan_in_index := some k
      graph_input_description := Option.none
      dagster_type := Option.none : InputMapping }.fan_in_index = some k :=
  ⟨rfl, rfl⟩

/-- C6: `describe` renders `"<graph_input_name> -> <node>:<port>"` with the
fan-in index appended directly after the port name only when present; at a
port named `x` mapped to `node:port` this gives `"x -> node:port2"` with index
2 and `"x -> node:port"` without one. -/
theorem describe_format :
    (∀ m : InputMapping, m.fan_in_index = none →
      m.describe = m.graph_input_name ++ " -> " ++ m.mapped_node_name ++ ":"
        ++ m.mapped_node_input_name) ∧
    (∀ (m : InputMapping) (k : Int), m.fan_in_index = some k →
      m.describe = m.graph_input_name ++ " -> " ++ m.mapped_node_name ++ ":"
        ++ m.mapped_node_input_name ++ toString k) ∧
    (sampleDef.mapping_to "node" "port" (some 2)).describe = "x -> node:port2" ∧
    (sampleDef.mapping_to "node" "port" none).describe = "x -> node:port" := by
  refine ⟨?_, ?_, rfl, rfl⟩
  · intro m hm
    unfold InputMapping.describe InputMapping.maps_to
    rw [hm]
  · intro m k hk
    unfold InputMapping.describe InputMapping.maps_to
    rw [hk]

/-- Witness for C6 at concrete mappings. -/
theorem describe_format_witness :
    sampleDirectMapping.fan_in_index = none ∧
    sampleDirectMapping.describe = sampleDirectMapping.graph_input_name ++ " -> "
      ++ sampleDirectMapping.mapped_node_name ++ ":"
      ++ sampleDirectMapping.mapped_node_input_name ∧
    sampleFanMapping.fan_in_index = some 2 ∧
    sampleFanMapping.describe = sampleFanMapping.graph_input_name ++ " -> "
      ++ sampleFanMapping.mapped_node_name ++ ":"
      ++ sampleFanMapping.mapped_node_input_name ++ toString (2 : Int) :=
  ⟨rfl, describe_format.1 sampleDirectMapping rfl, rfl,
    describe_format.2.1 sampleFanMapping 2 rfl⟩

/-- C7: for any valid name and any raw specifier resolving to the `Nothing`
type, construction with a concrete default fails with the definition error, and
the same construction with the no-default sentinel succeeds. -/
theorem nothing_type_default_rejected (name : String) (raw : RawType) (v : PyValue)
    (hname : isValidName name = true)
    (hres : resolve_dagster_type raw = .ok .Nothing) :
    InputDefinition.make name raw none (.val v) none [] .none .none none =
      .error (.invalidDefinition
        "Setting a default_value is invalid on InputDefinitions of type Nothing") ∧
    ∃ d, InputDefinition.make name raw none .noValue none [] .none .none none = .ok d := by
  have hcn : check_valid_name name = .ok name := by
    unfold check_valid_name
    simp [hname]
  constructor
  · simp [InputDefinition.make, hcn, hres, checkDefaultValue, DagsterType.is_nothing]
  · refine ⟨{ name := name
              type_not_set := typeNotSetOf raw
              dagster_type := .Nothing
              description := none
              default_value := .noValue
              root_manager_key := none
              input_manager_key := none
              metadata := []
              asset_key := .none
              asset_partitions_fn := none }, ?_⟩
    simp [InputDefinition.make, hcn, hres, checkDefaultValue, strTruthy,
      AssetPartitionsParam.truthy, AssetKeyParam.isSome, normalizePartitions]

/-- Witness for C7: the spec's scenario — port `data`, type `Nothing`,
default `0` fails; without a default it constructs. -/
theorem nothing_type_default_rejected_witness :
    isValidName "data" = true ∧
    resolve_dagster_type (.dt .Nothing) = .ok .Nothing ∧
    (InputDefinition.make "data" (.dt .Nothing) none (.val (.int 0)) none [] .none .none none =
      .error (.invalidDefinition
        "Setting a default_value is invalid on InputDefinitions of type Nothing") ∧
     ∃ d, InputDefinition.make "data" (.dt .Nothing) none .noValue none [] .none .none none =
      .ok d) :=
  ⟨by decide, rfl,
    nothing_type_default_rejected "data" (.dt .Nothing) (.int 0) (by decide) rfl⟩

/-- C8: a non-empty fixed partitions set supplied without an asset key makes
construction fail with the definition error. -/
theorem partitions_require_asset_key (name : String) (s : Finset String)
    (hname : isValidName name = true) (hs : s ≠ ∅) :
    InputDefinition.make name .unset none .noValue none [] .none (.fixed s) none =
      .error (.invalidDefinition
        "Cannot specify asset_partitions argument without also specifying asset_key") := by
  have hcn : check_valid_name name = .ok name := by
    unfold check_valid_name
    simp [hname]
  simp [InputDefinition.make, hcn, resolve_dagster_type, checkDefaultValue, strTruthy,
    AssetPartitionsParam.truthy, AssetKeyParam.isSome, hs]

/-- Witness for C8: the spec's scenario — partitions `{p1, p2}` and no key. -/
theorem partitions_require_asset_key_witness :
    isValidName "x" = true ∧ ({"p1", "p2"} : Finset String) ≠ ∅ ∧
    InputDefinition.make "x" .unset none .noValue none [] .none
      (.fixed {"p1", "p2"}) none =
      .error (.invalidDefinition
        "Cannot specify asset_partitions argument without also specifying asset_key") :=
  ⟨by decide, by decide,
    partitions_require_asset_key "x" {"p1", "p2"} (by decide) (by decide)⟩

/-- Associativity of string append (needed to exhibit substring
decompositions of error messages). -/
theorem strAppendAssoc (a b c : String) : (a ++ b) ++ c = a ++ (b ++ c) := by
  cases a with
  | mk la =>
    cases b with
    | mk lb =>
      cases c with
      | mk lc =>
        show String.mk ((la ++ lb) ++ lc) = String.mk (la ++ (lb ++ lc))
        rw [List.append_assoc]

/-- C9: type inference distinguishes three cases — no annotation resolves as
untyped, an explicit null annotation resolves to the null-only descriptor, any
other annotation resolves normally — and a resolution failure is re-raised as
a definition error whose message contains the port name and the annotation
text. -/
theorem checked_inferred_type_cases :
    (∀ inferred : InferredInputProps, inferred.annot = .empty →
      checkedInferredType inferred = .ok .Any) ∧
    (∀ inferred : InferredInputProps, inferred.annot = .noneAnn →
      checkedInferredType inferred = .ok .NoneType) ∧
    (∀ (inferred : InferredInputProps) (r : RawType) (t : DagsterType),
      inferred.annot = .raw r → resolve_dagster_type r = .ok t →
      checkedInferredType inferred = .ok t) ∧
    (∀ (inferred : InferredInputProps) (r : RawType) (e : DefError),
      inferred.annot = .raw r → resolve_dagster_type r = .error e →
      ∃ msg, checkedInferredType inferred = .error (.invalidDefinition msg) ∧
        (∃ a b, msg = a ++ (inferred.name ++ b)) ∧
        (∃ a b, msg = a ++ (annotText inferred.annot ++ b))) := by
  refine ⟨?_, ?_, ?_, ?_⟩
  · intro inferred h
    unfold checkedInferredType
    simp only [h, resolve_dagster_type]
  · intro inferred h
    unfold checkedInferredType
    simp only [h, resolve_dagster_type]
  · intro inferred r t h hres
    unfold checkedInferredType
    simp only [h, hres]
  · intro inferred r e h hres
    refine ⟨"Problem using type " ++ annotText inferred.annot
      ++ " from type annotation for argument " ++ inferred.name
      ++ ", correct the issue or explicitly set the dagster_type via In().", ?_, ?_, ?_⟩
    · unfold checkedInferredType
      simp only [h, hres]
    · exact ⟨"Problem using type " ++ annotText inferred.annot
        ++ " from type annotation for argument ",
        ", correct the issue or explicitly set the dagster_type via In().",
        by simp only [strAppendAssoc]⟩
    · exact ⟨"Problem using type ",
        " from type annotation for argument " ++ inferred.name
          ++ ", correct the issue or explicitly set the dagster_type via In().",
        by simp only [strAppendAssoc]⟩

/-- Inferred properties with no annotation at all. -/
def inferredNoAnn : InferredInputProps :=
  { name := "a"
    annot := .empty
    description := none
    default_value := .noValue }

/-- Inferred properties with an explicit `None` annotation. -/
def inferredNullAnn : InferredInputProps :=
  { name := "b"
    annot := .noneAnn
    description := none
    default_value := .noValue }

/-- Inferred properties with an ordinary resolvable annotation. -/
def inferredIntAnn : InferredInputProps :=
  { name := "c"
    annot := .raw .pyInt
    description := none
    default_value := .noValue }

/-- Inferred properties whose annotation the registry cannot resolve. -/
def inferredBadAnn : InferredInputProps :=
  { name := "d"
    annot := .raw (.unresolvable "Foo")
    description := none
    default_value := .noValue }

/-- Witness for C9 at a concrete inferred input per case, including a failing
resolution. -/
theorem checked_inferred_type_cases_witness :
    checkedInferredType inferredNoAnn = .ok .Any ∧
    checkedInferredType inferredNullAnn = .ok .NoneType ∧
    checkedInferredType inferredIntAnn = .ok .IntType ∧
    ∃ msg, checkedInferredType inferredBadAnn = .error (.invalidDefinition msg) ∧
      (∃ a b, msg = a ++ (inferredBadAnn.name ++ b)) ∧
      (∃ a b, msg = a ++ (annotText inferredBadAnn.annot ++ b)) :=
  ⟨checked_inferred_type_cases.1 inferredNoAnn rfl,
    checked_inferred_type_cases.2.1 inferredNullAnn rfl,
    checked_inferred_type_cases.2.2.1 inferredIntAnn .pyInt .IntType rfl rfl,
    checked_inferred_type_cases.2.2.2 inferredBadAnn (.unresolvable "Foo")
      (.typeResolution ("Foo" ++ " is not a valid dagster type")) rfl rfl⟩

/-- C10: construction with an empty fixed partitions set and no asset key
succeeds (the asset-key requirement is skipped for the falsy empty set), and
the resulting declaration answers `get_asset_partitions` with the empty set,
not with the none-configured `None`. -/
theorem empty_partitions_no_key (name : String) (hname : isValidName name = true) :
    ∃ d, InputDefinition.make name .unset none .noValue none [] .none (.fixed ∅) none =
        .ok d ∧
      ∀ context : InputContext, d.get_asset_partitions context = some ∅ := by
  have hcn : check_valid_name name = .ok name := by
    unfold check_valid_name
    simp [hname]
  refine ⟨{ name := name
            type_not_set := true
            dagster_type := .Any
            description := none
            default_value := .noValue
            root_manager_key := none
            input_manager_key := none
            metadata := []
            asset_key := .none
            asset_partitions_fn := some (fun _ => ∅) }, ?_, fun _ => rfl⟩
  simp [InputDefinition.make, hcn, resolve_dagster_type, checkDefaultValue, strTruthy,
    AssetPartitionsParam.truthy, AssetKeyParam.isSome, normalizePartitions, typeNotSetOf]

/-- Witness for C10 at the name `x`. -/
theorem empty_partitions_no_key_witness :
    isValidName "x" = true ∧
    ∃ d, InputDefinition.make "x" .unset none .noValue none [] .none (.fixed ∅) none =
        .ok d ∧
      ∀ context : InputContext, d.get_asset_partitions context = some ∅ :=
  ⟨by decide, empty_partitions_no_key "x" (by decide)⟩
